import Mathlib

/-!
Verification of the car-marketplace server actions in
`src/actions/car-listing.js` (getCarFilters, getCars, toggleSavedCar,
getSavedCars) against their natural-language specification.

Modelling choices for the shallow embedding:
* The relational database is a value of type `DB` (lists of rows); each
  Prisma query is translated to the corresponding list operation.
* JS numbers that the code only compares and counts (prices, timestamps,
  ids) are modelled as `Int`/`Nat`; `Number.MAX_SAFE_INTEGER` is the
  integer 9007199254740991.
* The authenticated caller (`auth()`) is an `Option String` of the Clerk
  user id; demo mode (`isDemoMode()`) is a `Bool` parameter; a database
  layer failure (anything thrown inside the `try`) is a `Bool` parameter
  that routes execution to the translated `catch` block.
* `new Date()` timestamps created inside a function body are supplied as
  a `now : Nat` parameter.
* Functions that throw are embedded as `Except String`, the error being
  the thrown message; functions returning envelopes return structures.
* `revalidatePath` (a cache-invalidation side effect) is not modelled.
-/

namespace CarMarket

/-- JS constant Number.MAX_SAFE_INTEGER, the sentinel used by getCars for
an unbounded maxPrice. -/
def maxSafeInteger : Int := 9007199254740991

/-- Row of the Car table (schema fields read by the listing actions). -/
structure Car where
  id : Nat
  make : String
  model : String
  year : Nat
  price : Int
  mileage : Nat
  color : String
  fuelType : String
  transmission : String
  bodyType : String
  seats : Nat
  description : String
  status : String
  featured : Bool
  images : List String
  createdAt : Nat
  updatedAt : Nat
deriving DecidableEq, Repr

/-- Row of the User table (fields read here). -/
structure User where
  id : Nat
  clerkUserId : String
deriving DecidableEq, Repr

/-- Row of the UserSavedCar wishlist join table. -/
structure SavedCar where
  userId : Nat
  carId : Nat
  savedAt : Nat
deriving DecidableEq, Repr

/-- The database state visible to these actions. -/
structure DB where
  cars : List Car
  users : List User
  savedCars : List SavedCar
deriving DecidableEq, Repr

/-- Entry of the featuredCars fixture imported from the data module in
demo mode. The fixture contents are not in the sources, so the list is a
parameter everywhere; only its per-entry shape is fixed here. -/
structure FeaturedCar where
  id : Nat
  make : String
  model : String
  year : Nat
  price : Int
  mileage : Nat
  color : String
  fuelType : String
  transmission : String
  bodyType : String
  images : List String
deriving DecidableEq, Repr

/-- Serialized (JSON-safe) car record returned to the UI. Price keeps its
numeric value (decimal-to-float is the identity on our integer prices) and
timestamps keep their order (ISO strings are order-isomorphic to times). -/
structure SerializedCar where
  id : Nat
  make : String
  model : String
  year : Nat
  price : Int
  mileage : Nat
  color : String
  fuelType : String
  transmission : String
  bodyType : String
  seats : Nat
  description : String
  status : String
  featured : Bool
  images : List String
  createdAt : Nat
  updatedAt : Nat
  wishlisted : Bool
deriving DecidableEq, Repr

/-- Modelled from the spec: `serializeCarData` from the helpers module is
not part of the given sources. Per spec section 4.2 it converts a car
entity to a plain response object, converting the decimal price to a
number and attaching the optional wishlist-membership boolean as a
boolean field (absent flag means not wishlisted). -/
def serializeCarData (car : Car) (wishlisted : Bool := false) : SerializedCar :=
  { id := car.id, make := car.make, model := car.model, year := car.year,
    price := car.price, mileage := car.mileage, color := car.color,
    fuelType := car.fuelType, transmission := car.transmission,
    bodyType := car.bodyType, seats := car.seats,
    description := car.description, status := car.status,
    featured := car.featured, images := car.images,
    createdAt := car.createdAt, updatedAt := car.updatedAt,
    wishlisted := wishlisted }

/-- Lower-case a single ASCII character (model of JS case folding). -/
def lowerChar (c : Char) : Char :=
  if 65 ≤ c.toNat ∧ c.toNat ≤ 90 then Char.ofNat (c.toNat + 32) else c

/-- Bool test that one character list starts with another. -/
def isPrefixOfChars : List Char → List Char → Bool
  | [], _ => true
  | _ :: _, [] => false
  | a :: as, b :: bs => a == b && isPrefixOfChars as bs

/-- Bool test that `needle` occurs as a contiguous run inside the list. -/
def hasInfixChars (needle : List Char) : List Char → Bool
  | [] => needle.isEmpty
  | b :: bs => isPrefixOfChars needle (b :: bs) || hasInfixChars needle bs

/-- Case-insensitive substring containment, the model of the Prisma
`contains` filter with mode insensitive. -/
def strContainsCI (hay needle : String) : Bool :=
  hasInfixChars (needle.toList.map lowerChar) (hay.toList.map lowerChar)

/-- Lexicographic comparison of character lists (model of the database
string collation used by `orderBy asc`). -/
def charListLe : List Char → List Char → Bool
  | [], _ => true
  | _ :: _, [] => false
  | a :: as, b :: bs => if a = b then charListLe as bs else decide (a.toNat < b.toNat)

/-- Ascending sort of strings, the model of `orderBy { field: "asc" }`. -/
def sortStringsAsc (l : List String) : List String :=
  l.insertionSort (fun a b => charListLe a.toList b.toList = true)

/-- Distinct values in ascending order: model of a Prisma `findMany` with
`distinct` and ascending `orderBy` on the selected field. -/
def distinctAsc (l : List String) : List String :=
  sortStringsAsc l.dedup

/-- Cars with status AVAILABLE (the `where: { status: "AVAILABLE" }`
restriction shared by all getCarFilters queries). -/
def availableCars (db : DB) : List Car :=
  db.cars.filter (fun c => c.status == "AVAILABLE")

/-- Price range shape used inside the filter payload. -/
structure PriceRange where
  min : Int
  max : Int
deriving DecidableEq, Repr

/-- Payload of getCarFilters. -/
structure FilterData where
  makes : List String
  bodyTypes : List String
  fuelTypes : List String
  transmissions : List String
  priceRange : PriceRange
deriving DecidableEq, Repr

/-- Envelope returned by getCarFilters. -/
structure FiltersResult where
  success : Bool
  data : FilterData
deriving DecidableEq, Repr

/-- The hard-coded filter payload returned both by the demo-mode branch
and by the catch block of getCarFilters. -/
def fallbackFilterData : FilterData :=
  { makes := ["Hyundai", "Honda", "BMW", "Tata", "Mahindra", "Ford"],
    bodyTypes := ["SUV", "Sedan", "Hatchback", "Convertible"],
    fuelTypes := ["Gasoline", "Diesel", "Electric", "Hybrid"],
    transmissions := ["Automatic", "Manual"],
    priceRange := { min := 0, max := 100000 } }

/-- Translation of getCarFilters: demo mode returns the fixed payload; a
database failure lands in the catch block returning the same fixed
payload; otherwise distinct sorted vocabularies and the price aggregation
over available cars. The aggregation result is null only when no row
matches, in which case the code substitutes 0 and 100000. -/
def getCarFilters (demo : Bool) (dbError : Bool) (db : DB) : FiltersResult :=
  if demo then
    { success := true, data := fallbackFilterData }
  else if dbError then
    { success := true, data := fallbackFilterData }
  else
    let avail := availableCars db
    { success := true,
      data :=
        { makes := distinctAsc (avail.map (fun c => c.make)),
          bodyTypes := distinctAsc (avail.map (fun c => c.bodyType)),
          fuelTypes := distinctAsc (avail.map (fun c => c.fuelType)),
          transmissions := distinctAsc (avail.map (fun c => c.transmission)),
          priceRange :=
            { min := ((avail.map (fun c => c.price)).min?).getD 0,
              max := ((avail.map (fun c => c.price)).max?).getD 100000 } } }

/-- Parameters of getCars with their JS default values. `minPrice = none`
models an absent or unparsable value (parseFloat yields NaN, and
`parseFloat(minPrice) || 0` collapses it to 0); `maxPrice = none` models
the absent value, whose JS default is the maxSafeInteger sentinel. -/
structure GetCarsParams where
  search : String := ""
  make : String := ""
  bodyType : String := ""
  fuelType : String := ""
  transmission : String := ""
  minPrice : Option Int := none
  maxPrice : Option Int := none
  sortBy : String := "newest"
  page : Nat := 1
  limit : Nat := 6
deriving DecidableEq, Repr

/-- Effective lower price bound: `parseFloat(minPrice) || 0`. -/
def effectiveMinPrice (p : GetCarsParams) : Int :=
  p.minPrice.getD 0

/-- Condition under which getCars adds an upper price bound:
`maxPrice && maxPrice < Number.MAX_SAFE_INTEGER` (truthy and below the
sentinel). The absent value defaults to the sentinel, hence false. -/
def hasFiniteMax (p : GetCarsParams) : Bool :=
  match p.maxPrice with
  | none => false
  | some v => !(v == 0) && decide (v < maxSafeInteger)

/-- The OR group matched when search text is present: case-insensitive
containment in make, model or description. -/
def searchMatches (search : String) (c : Car) : Bool :=
  strContainsCI c.make search || strContainsCI c.model search ||
    strContainsCI c.description search

/-- Translation of the `where` object built by getCars: status AVAILABLE,
the search OR group when search text is truthy, one exact-match clause
per truthy equality filter, `price >= effectiveMinPrice`, and
`price <= maxPrice` exactly when hasFiniteMax holds. -/
def carWhere (p : GetCarsParams) (c : Car) : Bool :=
  c.status == "AVAILABLE"
    && (p.search == "" || searchMatches p.search c)
    && (p.make == "" || c.make == p.make)
    && (p.bodyType == "" || c.bodyType == p.bodyType)
    && (p.fuelType == "" || c.fuelType == p.fuelType)
    && (p.transmission == "" || c.transmission == p.transmission)
    && decide (effectiveMinPrice p ≤ c.price)
    && (!hasFiniteMax p || decide (c.price ≤ p.maxPrice.getD 0))

/-- Translation of the orderBy switch of getCars: priceAsc sorts by price
ascending, priceDesc by price descending, anything else (newest and the
default) by creation time descending. -/
def sortCars (sortKey : String) (l : List Car) : List Car :=
  if sortKey == "priceAsc" then l.insertionSort (fun a b => a.price ≤ b.price)
  else if sortKey == "priceDesc" then l.insertionSort (fun a b => b.price ≤ a.price)
  else l.insertionSort (fun a b => b.createdAt ≤ a.createdAt)

/-- Lookup of the application user row for a Clerk id
(`db.user.findUnique({ where: { clerkUserId } })`). -/
def findUserByClerkId (db : DB) (uid : String) : Option User :=
  db.users.find? (fun u => u.clerkUserId == uid)

/-- The set of car ids saved by a user
(`db.userSavedCar.findMany({ where: { userId } })` projected to carId). -/
def userSavedCarIds (db : DB) (uid : Nat) : List Nat :=
  (db.savedCars.filter (fun s => s.userId == uid)).map (fun s => s.carId)

/-- Membership of a (user, car) pair in the wishlist, as the code queries
it: `db.userSavedCar.findUnique` on the composite key. -/
def isSaved (db : DB) (uid : Nat) (cid : Nat) : Bool :=
  (db.savedCars.find? (fun s => s.userId == uid && s.carId == cid)).isSome

/-- Pagination object of the getCars envelope. -/
structure Pagination where
  total : Nat
  page : Nat
  limit : Nat
  pages : Nat
deriving DecidableEq, Repr

/-- Envelope returned by getCars. -/
structure CarsResult where
  success : Bool
  data : List SerializedCar
  pagination : Pagination
deriving DecidableEq, Repr

/-- The demo-branch mapping of a fixture entry to a car row (lines
116-134 of the source): seats fixed at 5, synthesized description,
status AVAILABLE, featured, both timestamps set to the current time. -/
def demoCarOf (now : Nat) (c : FeaturedCar) : Car :=
  { id := c.id, make := c.make, model := c.model, year := c.year,
    price := c.price, mileage := c.mileage, color := c.color,
    fuelType := c.fuelType, transmission := c.transmission,
    bodyType := c.bodyType, seats := 5,
    description := toString c.year ++ " " ++ c.make ++ " " ++ c.model,
    status := "AVAILABLE", featured := true, images := c.images,
    createdAt := now, updatedAt := now }

/-- Translation of getCars. Demo mode maps the fixture and returns it
whole with a single-page pagination object. A database failure lands in
the catch block: success with empty data and zero totals. Otherwise:
count over the predicate, fetch of the sorted page window at offset
(page-1)*limit, wishlist annotation through one bulk lookup of the
saved ids of the caller. Math.ceil(total/limit) on naturals is
(total + limit - 1) / limit. -/
def getCars (demo : Bool) (fixture : List FeaturedCar) (now : Nat)
    (authId : Option String) (dbError : Bool) (db : DB)
    (p : GetCarsParams) : CarsResult :=
  if demo then
    let mapped := fixture.map (demoCarOf now)
    { success := true,
      data := mapped.map (fun x => serializeCarData x false),
      pagination := { total := mapped.length, page := p.page, limit := p.limit, pages := 1 } }
  else if dbError then
    { success := true, data := [],
      pagination := { total := 0, page := p.page, limit := p.limit, pages := 0 } }
  else
    let dbUser := authId.bind (findUserByClerkId db)
    let matching := db.cars.filter (carWhere p)
    let skip := (p.page - 1) * p.limit
    let totalCars := matching.length
    let cars := ((sortCars p.sortBy matching).drop skip).take p.limit
    let wishlisted : List Nat :=
      match dbUser with
      | some u => userSavedCarIds db u.id
      | none => []
    { success := true,
      data := cars.map (fun car => serializeCarData car (wishlisted.contains car.id)),
      pagination := { total := totalCars, page := p.page, limit := p.limit,
                      pages := (totalCars + p.limit - 1) / p.limit } }

/-- Envelope returned by toggleSavedCar on the non-throwing paths. -/
structure ToggleResult where
  success : Bool
  saved : Option Bool
  error : Option String
  message : Option String
deriving DecidableEq, Repr

/-- Translation of toggleSavedCar. The two guard throws inside the try
block are rethrown by the catch block with the prefix
"Error toggling saved car:" glued to the underlying message, so the
embedding produces the prefixed message directly. A missing car returns
the soft envelope. Otherwise the composite-key row is deleted when
present and created when absent, and the mutated database is returned
with the envelope. -/
def toggleSavedCar (authId : Option String) (now : Nat) (db : DB)
    (carId : Nat) : Except String (DB × ToggleResult) :=
  match authId with
  | none => .error ("Error toggling saved car:" ++ "Unauthorized")
  | some uid =>
    match findUserByClerkId db uid with
    | none => .error ("Error toggling saved car:" ++ "User not found")
    | some user =>
      match db.cars.find? (fun c => c.id == carId) with
      | none =>
        .ok (db, { success := false, saved := none,
                   error := some "Car not found", message := none })
      | some _ =>
        match db.savedCars.find? (fun s => s.userId == user.id && s.carId == carId) with
        | some _ =>
          .ok ({ db with savedCars :=
                   db.savedCars.filter (fun s => !(s.userId == user.id && s.carId == carId)) },
               { success := true, saved := some false, error := none,
                 message := some "Car removed from favorites" })
        | none =>
          .ok ({ db with savedCars :=
                   db.savedCars ++ [{ userId := user.id, carId := carId, savedAt := now }] },
               { success := true, saved := some true, error := none,
                 message := some "Car added to favorites" })

/-- Envelope returned by getSavedCars. -/
structure SavedCarsResult where
  success : Bool
  data : List SerializedCar
  error : Option String
deriving DecidableEq, Repr

/-- Translation of getSavedCars: soft Unauthorized and User not found
envelopes, then the wishlist rows of the user ordered by saved time
descending, each joined with its car row and serialized without a
wishlist-membership argument. -/
def getSavedCars (authId : Option String) (db : DB) : SavedCarsResult :=
  match authId with
  | none => { success := false, data := [], error := some "Unauthorized" }
  | some uid =>
    match findUserByClerkId db uid with
    | none => { success := false, data := [], error := some "User not found" }
    | some user =>
      let rows := (db.savedCars.filter (fun s => s.userId == user.id)).insertionSort
        (fun a b => b.savedAt ≤ a.savedAt)
      let cars := rows.filterMap
        (fun s => (db.cars.find? (fun c => c.id == s.carId)).map
          (fun c => serializeCarData c))
      { success := true, data := cars, error := none }

/-- Result extractor: the database state after a toggle call (unchanged
when the call throws). -/
def toggleStep (authId : Option String) (now : Nat) (db : DB) (carId : Nat) : DB :=
  match toggleSavedCar authId now db carId with
  | .ok (db2, _) => db2
  | .error _ => db

/-- Result extractor: the envelope returned by a non-throwing toggle
call. -/
def toggleReply (authId : Option String) (now : Nat) (db : DB) (carId : Nat) :
    Option ToggleResult :=
  match toggleSavedCar authId now db carId with
  | .ok (_, r) => some r
  | .error _ => none

/-- Spec-side statement that `pages` is the ceiling of total divided by
limit: the least page count whose capacity covers the total. -/
def isCeilOf (pages total limit : Nat) : Prop :=
  total ≤ pages * limit ∧ ∀ k : Nat, total ≤ k * limit → pages ≤ k

/-- Spec-side ordering required of the returned page for each sortBy
value: priceAsc means non-decreasing price, priceDesc non-increasing
price, anything else non-increasing creation time. -/
def specSortRel (sortKey : String) (a b : SerializedCar) : Prop :=
  if sortKey = "priceAsc" then a.price ≤ b.price
  else if sortKey = "priceDesc" then b.price ≤ a.price
  else b.createdAt ≤ a.createdAt

/-- Spec-side copy of the getCars predicate with no upper price clause,
used to state that no upper bound is applied without a finite maxPrice. -/
def carWhereNoUpper (p : GetCarsParams) (c : Car) : Bool :=
  c.status == "AVAILABLE"
    && (p.search == "" || searchMatches p.search c)
    && (p.make == "" || c.make == p.make)
    && (p.bodyType == "" || c.bodyType == p.bodyType)
    && (p.fuelType == "" || c.fuelType == p.fuelType)
    && (p.transmission == "" || c.transmission == p.transmission)
    && decide (effectiveMinPrice p ≤ c.price)

/-- Concrete car used by the witnesses. -/
def exCar1 : Car :=
  { id := 1, make := "Honda", model := "Civic", year := 2020, price := 20000,
    mileage := 10, color := "Red", fuelType := "Gasoline",
    transmission := "Manual", bodyType := "Sedan", seats := 5,
    description := "clean city sedan", status := "AVAILABLE",
    featured := false, images := [], createdAt := 100, updatedAt := 100 }

/-- Second concrete car used by the witnesses. -/
def exCar2 : Car :=
  { exCar1 with
    id := 2, make := "BMW", model := "X5", price := 50000,
    bodyType := "SUV", createdAt := 200 }

/-- Concrete database used by the witnesses: two available cars, one
user, car 1 already wishlisted by that user. -/
def exDB : DB :=
  { cars := [exCar1, exCar2],
    users := [{ id := 7, clerkUserId := "u7" }],
    savedCars := [{ userId := 7, carId := 1, savedAt := 5 }] }

/-- Concrete fixture entry used by the demo-mode witness. -/
def exFixture : FeaturedCar :=
  { id := 3, make := "Tata", model := "Nexon", year := 2021, price := 9000,
    mileage := 3, color := "Blue", fuelType := "Diesel",
    transmission := "Manual", bodyType := "SUV", images := [] }

theorem find?_filter_not_self {α : Type _} (p : α → Bool) (l : List α) :
    (l.filter fun x => !p x).find? p = none := by
  refine List.find?_eq_none.mpr (fun x hx => ?_)
  have h := (List.mem_filter.mp hx).2
  simp only [Bool.not_eq_true'] at h
  simp [h]

/-- C4: in live (non-demo) mode, a failure during query execution makes
getCars return success true with empty data and a zero-total pagination
object echoing page and limit, never a failure envelope. -/
theorem getCars_dbError_failSoft (fixture : List FeaturedCar) (now : Nat)
    (authId : Option String) (db : DB) (p : GetCarsParams) :
    getCars false fixture now authId true db p =
      { success := true, data := [],
        pagination := { total := 0, page := p.page, limit := p.limit, pages := 0 } } := rfl

/-- C5: when demo mode is active or a database error occurs,
getCarFilters returns success true with exactly the fixed fallback data,
and getCarFilters never returns a non-success envelope on any input. -/
theorem getCarFilters_fallback (demo dbError : Bool) (db : DB)
    (h : demo = true ∨ dbError = true) (d e : Bool) (db2 : DB) :
    getCarFilters demo dbError db =
      { success := true,
        data := { makes := ["Hyundai", "Honda", "BMW", "Tata", "Mahindra", "Ford"],
                  bodyTypes := ["SUV", "Sedan", "Hatchback", "Convertible"],
                  fuelTypes := ["Gasoline", "Diesel", "Electric", "Hybrid"],
                  transmissions := ["Automatic", "Manual"],
                  priceRange := { min := 0, max := 100000 } } } ∧
    (getCarFilters d e db2).success = true := by
  constructor
  · rcases h with h | h <;> subst h
    · rfl
    · cases demo <;> rfl
  · cases d <;> cases e <;> rfl

theorem getCarFilters_fallback_witness :
    getCarFilters true false exDB =
      { success := true,
        data := { makes := ["Hyundai", "Honda", "BMW", "Tata", "Mahindra", "Ford"],
                  bodyTypes := ["SUV", "Sedan", "Hatchback", "Convertible"],
                  fuelTypes := ["Gasoline", "Diesel", "Electric", "Hybrid"],
                  transmissions := ["Automatic", "Manual"],
                  priceRange := { min := 0, max := 100000 } } } ∧
    (getCarFilters false false exDB).success = true :=
  getCarFilters_fallback true false exDB (Or.inl rfl) false false exDB

/-- Database after deleting the composite-key wishlist row, as the
delete branch of toggleSavedCar computes it. -/
def removeSaved (db : DB) (uid cid : Nat) : DB :=
  { db with savedCars := db.savedCars.filter (fun s => !(s.userId == uid && s.carId == cid)) }

/-- Database after inserting a wishlist row, as the create branch of
toggleSavedCar computes it. -/
def addSaved (db : DB) (uid cid now : Nat) : DB :=
  { db with savedCars := db.savedCars ++ [{ userId := uid, carId := cid, savedAt := now }] }

theorem toggleStep_eq {a : Option String} {n : Nat} {d : DB} {c : Nat}
    {d2 : DB} {r : ToggleResult}
    (h : toggleSavedCar a n d c = .ok (d2, r)) : toggleStep a n d c = d2 := by
  unfold toggleStep
  rw [h]

theorem toggleReply_eq {a : Option String} {n : Nat} {d : DB} {c : Nat}
    {d2 : DB} {r : ToggleResult}
    (h : toggleSavedCar a n d c = .ok (d2, r)) : toggleReply a n d c = some r := by
  unfold toggleReply
  rw [h]

theorem isSaved_removeSaved (db : DB) (u c : Nat) :
    isSaved (removeSaved db u c) u c = false := by
  have h := find?_filter_not_self
    (fun s : SavedCar => s.userId == u && s.carId == c) db.savedCars
  unfold isSaved removeSaved
  simp only [h, Option.isSome_none]

theorem isSaved_addSaved (db : DB) (u c now : Nat) :
    isSaved (addSaved db u c now) u c = true := by
  unfold isSaved addSaved
  simp [List.find?_append]

theorem toggle_delete (uid : String) (n : Nat) (db : DB) (carId : Nat)
    (user : User) (car : Car) (s0 : SavedCar)
    (hu : findUserByClerkId db uid = some user)
    (hc : db.cars.find? (fun c => c.id == carId) = some car)
    (h : db.savedCars.find? (fun s => s.userId == user.id && s.carId == carId) = some s0) :
    toggleSavedCar (some uid) n db carId =
      .ok (removeSaved db user.id carId,
           { success := true, saved := some false, error := none,
             message := some "Car removed from favorites" }) := by
  simp only [toggleSavedCar, removeSaved, hu, hc, h]

theorem toggle_insert (uid : String) (n : Nat) (db : DB) (carId : Nat)
    (user : User) (car : Car)
    (hu : findUserByClerkId db uid = some user)
    (hc : db.cars.find? (fun c => c.id == carId) = some car)
    (h : db.savedCars.find? (fun s => s.userId == user.id && s.carId == carId) = none) :
    toggleSavedCar (some uid) n db carId =
      .ok (addSaved db user.id carId n,
           { success := true, saved := some true, error := none,
             message := some "Car added to favorites" }) := by
  simp only [toggleSavedCar, addSaved, hu, hc, h]

/-- C6: for an authenticated caller with an application user record and
an existing car, toggleSavedCar deletes the composite-key wishlist row
and replies success true saved false when the row exists, inserts it and
replies success true saved true when it is absent, and two sequential
calls restore the original membership state of the pair. -/
theorem toggleSavedCar_roundtrip (uid : String) (n1 n2 : Nat) (db : DB)
    (carId : Nat) (user : User) (car : Car)
    (hu : findUserByClerkId db uid = some user)
    (hc : db.cars.find? (fun c => c.id == carId) = some car) :
    (toggleReply (some uid) n1 db carId).map (fun r => (r.success, r.saved)) =
      some (true, some (!(isSaved db user.id carId))) ∧
    isSaved (toggleStep (some uid) n1 db carId) user.id carId =
      !(isSaved db user.id carId) ∧
    (toggleReply (some uid) n2 (toggleStep (some uid) n1 db carId) carId).map
      (fun r => (r.success, r.saved)) =
      some (true, some (isSaved db user.id carId)) ∧
    isSaved (toggleStep (some uid) n2 (toggleStep (some uid) n1 db carId) carId)
      user.id carId = isSaved db user.id carId := by
  cases h : db.savedCars.find? (fun s => s.userId == user.id && s.carId == carId) with
  | some s0 =>
    have hsaved : isSaved db user.id carId = true := by simp [isSaved, h]
    have e1 := toggle_delete uid n1 db carId user car s0 hu hc h
    have st1 : toggleStep (some uid) n1 db carId = removeSaved db user.id carId :=
      toggleStep_eq e1
    have hu1 : findUserByClerkId (removeSaved db user.id carId) uid = some user := hu
    have hc1 : (removeSaved db user.id carId).cars.find? (fun c => c.id == carId) =
        some car := hc
    have hn : (removeSaved db user.id carId).savedCars.find?
        (fun s => s.userId == user.id && s.carId == carId) = none :=
      find?_filter_not_self _ _
    have e2 := toggle_insert uid n2 (removeSaved db user.id carId) carId user car
      hu1 hc1 hn
    refine ⟨?_, ?_, ?_, ?_⟩
    · rw [toggleReply_eq e1, hsaved]
      rfl
    · rw [st1, hsaved, isSaved_removeSaved]
      rfl
    · rw [st1, toggleReply_eq e2, hsaved]
      rfl
    · rw [st1, toggleStep_eq e2, isSaved_addSaved, hsaved]
  | none =>
    have hsaved : isSaved db user.id carId = false := by simp [isSaved, h]
    have e1 := toggle_insert uid n1 db carId user car hu hc h
    have st1 : toggleStep (some uid) n1 db carId = addSaved db user.id carId n1 :=
      toggleStep_eq e1
    have hu1 : findUserByClerkId (addSaved db user.id carId n1) uid = some user := hu
    have hc1 : (addSaved db user.id carId n1).cars.find? (fun c => c.id == carId) =
        some car := hc
    have hsome : ((addSaved db user.id carId n1).savedCars.find?
        (fun s => s.userId == user.id && s.carId == carId)).isSome = true :=
      isSaved_addSaved db user.id carId n1
    obtain ⟨s0, hs0⟩ := Option.isSome_iff_exists.mp hsome
    have e2 := toggle_delete uid n2 (addSaved db user.id carId n1) carId user car s0
      hu1 hc1 hs0
    refine ⟨?_, ?_, ?_, ?_⟩
    · rw [toggleReply_eq e1, hsaved]
      rfl
    · rw [st1, hsaved, isSaved_addSaved]
      rfl
    · rw [st1, toggleReply_eq e2, hsaved]
      rfl
    · rw [st1, toggleStep_eq e2, isSaved_removeSaved, hsaved]

theorem toggleSavedCar_roundtrip_witness :
    (toggleReply (some "u7") 21 exDB 1).map (fun r => (r.success, r.saved)) =
      some (true, some (!(isSaved exDB (User.id { id := 7, clerkUserId := "u7" }) 1))) ∧
    isSaved (toggleStep (some "u7") 21 exDB 1)
      (User.id { id := 7, clerkUserId := "u7" }) 1 =
      !(isSaved exDB (User.id { id := 7, clerkUserId := "u7" }) 1) ∧
    (toggleReply (some "u7") 22 (toggleStep (some "u7") 21 exDB 1) 1).map
      (fun r => (r.success, r.saved)) =
      some (true, some (isSaved exDB (User.id { id := 7, clerkUserId := "u7" }) 1)) ∧
    isSaved (toggleStep (some "u7") 22 (toggleStep (some "u7") 21 exDB 1) 1)
      (User.id { id := 7, clerkUserId := "u7" }) 1 =
      isSaved exDB (User.id { id := 7, clerkUserId := "u7" }) 1 :=
  toggleSavedCar_roundtrip "u7" 21 22 exDB 1 { id := 7, clerkUserId := "u7" }
    exCar1 (by decide) (by decide)

/-- C7: for an authenticated caller with an application user record,
toggleSavedCar on a car id matching no car returns the soft envelope
with error Car not found and returns the database unchanged, creating no
wishlist row. -/
theorem toggleSavedCar_carNotFound (uid : String) (now : Nat) (db : DB)
    (carId : Nat) (user : User) (hu : findUserByClerkId db uid = some user)
    (hc : db.cars.find? (fun c => c.id == carId) = none) :
    toggleSavedCar (some uid) now db carId =
      .ok (db, { success := false, saved := none,
                 error := some "Car not found", message := none }) := by
  simp [toggleSavedCar, hu, hc]

theorem toggleSavedCar_carNotFound_witness :
    toggleSavedCar (some "u7") 0 exDB 99 =
      .ok (exDB, { success := false, saved := none,
                   error := some "Car not found", message := none }) :=
  toggleSavedCar_carNotFound "u7" 0 exDB 99 { id := 7, clerkUserId := "u7" }
    (by decide) (by decide)

/-- C8: an unauthenticated toggleSavedCar call, or one whose
authenticated identity has no application user record, terminates by
throwing the prefix Error toggling saved car: concatenated with the
cause, Unauthorized or User not found respectively, instead of
returning a soft envelope. -/
theorem toggleSavedCar_throws (now : Nat) (db : DB) (carId : Nat)
    (uid : String) (hu : findUserByClerkId db uid = none) :
    toggleSavedCar none now db carId =
      .error ("Error toggling saved car:" ++ "Unauthorized") ∧
    toggleSavedCar (some uid) now db carId =
      .error ("Error toggling saved car:" ++ "User not found") := by
  exact ⟨rfl, by simp [toggleSavedCar, hu]⟩

theorem mem_sortCars {k : String} {l : List Car} {x : Car} :
    x ∈ sortCars k l ↔ x ∈ l := by
  unfold sortCars
  split
  · exact List.mem_insertionSort _
  · split
    · exact List.mem_insertionSort _
    · exact List.mem_insertionSort _

theorem mem_getCars_data {fixture : List FeaturedCar} {now : Nat}
    {authId : Option String} {db : DB} {p : GetCarsParams} {sc : SerializedCar}
    (hsc : sc ∈ (getCars false fixture now authId false db p).data) :
    ∃ car, carWhere p car = true ∧ ∃ w, sc = serializeCarData car w := by
  unfold getCars at hsc
  simp only [Bool.false_eq_true, if_false] at hsc
  obtain ⟨car, hcar, rfl⟩ := List.mem_map.mp hsc
  have h1 : car ∈ db.cars.filter (carWhere p) :=
    mem_sortCars.mp (List.mem_of_mem_drop (List.mem_of_mem_take hcar))
  exact ⟨car, (List.mem_filter.mp h1).2, _, rfl⟩

theorem specSortRel_serialize (key : String) (a b : Car) (x y : Bool) :
    specSortRel key (serializeCarData a x) (serializeCarData b y) ↔
      (if key = "priceAsc" then a.price ≤ b.price
       else if key = "priceDesc" then b.price ≤ a.price
       else b.createdAt ≤ a.createdAt) := by
  unfold specSortRel serializeCarData
  exact Iff.rfl

theorem sortCars_pairwise (key : String) (l : List Car) :
    (sortCars key l).Pairwise
      (fun a b => if key = "priceAsc" then a.price ≤ b.price
        else if key = "priceDesc" then b.price ≤ a.price
        else b.createdAt ≤ a.createdAt) := by
  by_cases h1 : key = "priceAsc"
  · simp only [sortCars, h1, if_pos, beq_self_eq_true, if_true]
    exact @List.sorted_insertionSort Car (fun a b => a.price ≤ b.price) _
      ⟨fun a b => le_total a.price b.price⟩
      ⟨fun a b c h h2 => le_trans h h2⟩ l
  · by_cases h2 : key = "priceDesc"
    · have hb1 : (key == "priceAsc") = false := by simp [h1]
      simp only [sortCars, h1, h2, hb1, Bool.false_eq_true, if_false,
        beq_self_eq_true, if_true]
      exact @List.sorted_insertionSort Car (fun a b => b.price ≤ a.price) _
        ⟨fun a b => le_total b.price a.price⟩
        ⟨fun a b c h h2 => le_trans h2 h⟩ l
    · have hb1 : (key == "priceAsc") = false := by simp [h1]
      have hb2 : (key == "priceDesc") = false := by simp [h2]
      simp only [sortCars, h1, h2, hb1, hb2, Bool.false_eq_true, if_false]
      exact @List.sorted_insertionSort Car (fun a b => b.createdAt ≤ a.createdAt) _
        ⟨fun a b => le_total b.createdAt a.createdAt⟩
        ⟨fun a b c h h2 => le_trans h2 h⟩ l

/-- C3: the page returned by getCars is ordered according to sortBy:
non-decreasing price for priceAsc, non-increasing price for priceDesc,
and non-increasing creation time for every other value including the
default newest. -/
theorem getCars_sort_order (fixture : List FeaturedCar) (now : Nat)
    (authId : Option String) (db : DB) (p : GetCarsParams) :
    ((getCars false fixture now authId false db p).data).Pairwise
      (specSortRel p.sortBy) := by
  simp only [getCars, Bool.false_eq_true, if_false]
  rw [List.pairwise_map]
  have hs : (sortCars p.sortBy (db.cars.filter (carWhere p))).Pairwise
      (fun a b => specSortRel p.sortBy
        (serializeCarData a ((match authId.bind (findUserByClerkId db) with
          | some u => userSavedCarIds db u.id
          | none => []).contains a.id))
        (serializeCarData b ((match authId.bind (findUserByClerkId db) with
          | some u => userSavedCarIds db u.id
          | none => []).contains b.id))) :=
    (sortCars_pairwise p.sortBy (db.cars.filter (carWhere p))).imp
      (fun {a b} hab => (specSortRel_serialize p.sortBy a b _ _).mpr hab)
  exact hs.sublist ((List.take_sublist _ _).trans (List.drop_sublist _ _))

theorem isCeilOf_ceilDiv (t l : Nat) (hl : 0 < l) : isCeilOf (t ⌈/⌉ l) t l := by
  constructor
  · have h := le_smul_ceilDiv (α := ℕ) (β := ℕ) (b := t) hl
    simpa [smul_eq_mul, mul_comm] using h
  · intro k hk
    refine (ceilDiv_le_iff_le_mul hl).mpr ?_
    rw [mul_comm]
    exact hk

/-- C1: with valid parameters and a positive limit, getCars reports a
total equal to the number of cars matching the predicate (hence never
negative), computes pages as the ceiling of total divided by limit, and
fetches the page window of the sorted matches at offset (page-1)*limit
of size limit. -/
theorem getCars_pagination_contract (fixture : List FeaturedCar) (now : Nat)
    (authId : Option String) (db : DB) (p : GetCarsParams)
    (_hpage : 1 ≤ p.page) (hlimit : 0 < p.limit) :
    (getCars false fixture now authId false db p).pagination.total =
      (db.cars.filter (carWhere p)).length ∧
    (0 : Int) ≤ ((getCars false fixture now authId false db p).pagination.total : Int) ∧
    (getCars false fixture now authId false db p).pagination.pages =
      (getCars false fixture now authId false db p).pagination.total ⌈/⌉ p.limit ∧
    isCeilOf (getCars false fixture now authId false db p).pagination.pages
      (getCars false fixture now authId false db p).pagination.total p.limit ∧
    (getCars false fixture now authId false db p).data =
      (((sortCars p.sortBy (db.cars.filter (carWhere p))).drop
          ((p.page - 1) * p.limit)).take p.limit).map
        (fun car => serializeCarData car
          ((match authId.bind (findUserByClerkId db) with
            | some u => userSavedCarIds db u.id
            | none => []).contains car.id)) := by
  refine ⟨rfl, ?_, ?_, ?_, rfl⟩
  · exact Int.natCast_nonneg _
  · exact (Nat.ceilDiv_eq_add_pred_div _ _).symm
  · have h := isCeilOf_ceilDiv
      ((getCars false fixture now authId false db p).pagination.total) p.limit hlimit
    rwa [Nat.ceilDiv_eq_add_pred_div] at h

theorem getCars_pagination_contract_witness :
    (getCars false [] 0 (some "u7") false exDB {}).pagination.total =
      (exDB.cars.filter (carWhere {})).length ∧
    (0 : Int) ≤ ((getCars false [] 0 (some "u7") false exDB {}).pagination.total : Int) ∧
    (getCars false [] 0 (some "u7") false exDB {}).pagination.pages =
      (getCars false [] 0 (some "u7") false exDB {}).pagination.total ⌈/⌉
        (GetCarsParams.limit {}) ∧
    isCeilOf (getCars false [] 0 (some "u7") false exDB {}).pagination.pages
      (getCars false [] 0 (some "u7") false exDB {}).pagination.total
      (GetCarsParams.limit {}) ∧
    (getCars false [] 0 (some "u7") false exDB {}).data =
      (((sortCars (GetCarsParams.sortBy {}) (exDB.cars.filter (carWhere {}))).drop
          ((GetCarsParams.page {} - 1) * GetCarsParams.limit {})).take
        (GetCarsParams.limit {})).map
        (fun car => serializeCarData car
          ((match (some "u7").bind (findUserByClerkId exDB) with
            | some u => userSavedCarIds exDB u.id
            | none => []).contains car.id)) :=
  getCars_pagination_contract [] 0 (some "u7") exDB {} (by decide) (by decide)

/-- C2: every car returned by getCars satisfies the lower price bound
effectiveMinPrice (the default 0 standing in for an unset or unparsable
minPrice), the upper bound maxPrice is satisfied whenever a finite
maxPrice was supplied, and without a finite maxPrice the predicate is
exactly the one with no upper price clause. -/
theorem getCars_price_bounds (fixture : List FeaturedCar) (now : Nat)
    (authId : Option String) (db : DB) (p : GetCarsParams)
    (sc : SerializedCar)
    (hsc : sc ∈ (getCars false fixture now authId false db p).data) (c : Car) :
    (effectiveMinPrice p ≤ sc.price ∧
      (hasFiniteMax p = true → sc.price ≤ p.maxPrice.getD 0)) ∧
    (hasFiniteMax p = false → carWhere p c = carWhereNoUpper p c) := by
  constructor
  · obtain ⟨car, hw, w, rfl⟩ := mem_getCars_data hsc
    simp only [carWhere, Bool.and_eq_true, decide_eq_true_eq, Bool.or_eq_true,
      Bool.not_eq_true'] at hw
    refine ⟨hw.1.2, fun hfm => ?_⟩
    rcases hw.2 with hfalse | hle
    · rw [hfm] at hfalse; cases hfalse
    · exact hle
  · intro h
    simp [carWhere, carWhereNoUpper, h]

theorem getCars_price_bounds_witness :
    (effectiveMinPrice { minPrice := some 10, maxPrice := some 30000 } ≤
        (serializeCarData exCar1 true).price ∧
      (hasFiniteMax { minPrice := some 10, maxPrice := some 30000 } = true →
        (serializeCarData exCar1 true).price ≤
          (GetCarsParams.maxPrice { minPrice := some 10, maxPrice := some 30000 }).getD 0)) ∧
    (hasFiniteMax { minPrice := some 10, maxPrice := some 30000 } = false →
      carWhere { minPrice := some 10, maxPrice := some 30000 } exCar2 =
        carWhereNoUpper { minPrice := some 10, maxPrice := some 30000 } exCar2) :=
  getCars_price_bounds [] 0 (some "u7") exDB
    { minPrice := some 10, maxPrice := some 30000 }
    (serializeCarData exCar1 true) (by decide) exCar2

/-- C9: in demo mode getCars returns the same data for every combination
of caller, database, failure flag and parameters; the data is the whole
mapped fixture; pagination reports the fixture length, a single page and
the echoed page and limit; and every returned car has wishlisted false. -/
theorem getCars_demo_const (fixture : List FeaturedCar) (now : Nat)
    (a1 a2 : Option String) (e1 e2 : Bool) (d1 d2 : DB)
    (p1 p2 : GetCarsParams) (sc : SerializedCar)
    (hsc : sc ∈ (getCars true fixture now a1 e1 d1 p1).data) :
    (getCars true fixture now a1 e1 d1 p1).data =
      (getCars true fixture now a2 e2 d2 p2).data ∧
    (getCars true fixture now a1 e1 d1 p1).data =
      (fixture.map (demoCarOf now)).map (fun x => serializeCarData x false) ∧
    (getCars true fixture now a1 e1 d1 p1).pagination =
      { total := fixture.length, page := p1.page, limit := p1.limit, pages := 1 } ∧
    sc.wishlisted = false := by
  refine ⟨rfl, rfl, ?_, ?_⟩
  · simp [getCars]
  · unfold getCars at hsc
    simp only [if_true] at hsc
    obtain ⟨car, _, rfl⟩ := List.mem_map.mp hsc
    rfl

theorem getCars_demo_const_witness :
    (getCars true [exFixture] 11 (some "u7") false exDB {}).data =
      (getCars true [exFixture] 11 none true exDB { page := 9 }).data ∧
    (getCars true [exFixture] 11 (some "u7") false exDB {}).data =
      ([exFixture].map (demoCarOf 11)).map (fun x => serializeCarData x false) ∧
    (getCars true [exFixture] 11 (some "u7") false exDB {}).pagination =
      { total := [exFixture].length, page := GetCarsParams.page {},
        limit := GetCarsParams.limit {}, pages := 1 } ∧
    (serializeCarData (demoCarOf 11 exFixture) false).wishlisted = false :=
  getCars_demo_const [exFixture] 11 (some "u7") none false true exDB exDB
    {} { page := 9 } (serializeCarData (demoCarOf 11 exFixture) false)
    (by simp [getCars])

/-- C10: for an authenticated user with an application user record,
every car returned by getSavedCars carries wishlisted false, because the
serializer is called without a membership flag, although each returned
car is by construction a member of the wishlist of the caller. -/
theorem getSavedCars_unflagged (db : DB) (uid : String) (user : User)
    (hu : findUserByClerkId db uid = some user) (sc : SerializedCar)
    (hsc : sc ∈ (getSavedCars (some uid) db).data) :
    sc.wishlisted = false ∧ isSaved db user.id sc.id = true := by
  simp only [getSavedCars, hu] at hsc
  obtain ⟨s, hs, hmap⟩ := List.mem_filterMap.mp hsc
  obtain ⟨c, hfind, rfl⟩ := Option.map_eq_some'.mp hmap
  have hsmem : s ∈ db.savedCars.filter (fun s => s.userId == user.id) :=
    (List.mem_insertionSort _).mp hs
  have hid : c.id = s.carId := by
    have := List.find?_some hfind
    simpa using this
  refine ⟨rfl, ?_⟩
  apply List.find?_isSome.mpr
  refine ⟨s, (List.mem_filter.mp hsmem).1, ?_⟩
  have huid := (List.mem_filter.mp hsmem).2
  simp only [serializeCarData, hid]
  simp [huid]

theorem getSavedCars_unflagged_witness :
    (serializeCarData exCar1).wishlisted = false ∧
    isSaved exDB (User.id { id := 7, clerkUserId := "u7" })
      (serializeCarData exCar1).id = true :=
  getSavedCars_unflagged exDB "u7" { id := 7, clerkUserId := "u7" }
    (by decide) (serializeCarData exCar1) (by decide)

theorem toggleSavedCar_throws_witness :
    toggleSavedCar none 0 exDB 1 =
      .error ("Error toggling saved car:" ++ "Unauthorized") ∧
    toggleSavedCar (some "ghost") 0 exDB 1 =
      .error ("Error toggling saved car:" ++ "User not found") :=
  toggleSavedCar_throws 0 exDB 1 "ghost" (by decide)

end CarMarket
